import Mathlib

/-!
Shallow embedding of the recording-to-analysis pipeline of
`src/src/App.jsx`: the stereo-to-mono down-mix performed in the `onstop`
handler, the `analyzeWithOpenAI` invoker, the `startRecording` and
`stopRecording` handlers, and the record-button guard, together with
theorems checking the specification claims against these definitions.
-/

namespace MeetingAssist

/-- A decoded audio buffer, the result of `audioCTX.decodeAudioData`:
a channel count (`decoded.numberOfChannels`), a frame count
(`decoded.length`, called `len` here), and per-channel sample data
(`decoded.getChannelData(c)[i]`).  PCM samples are modelled as real
numbers. -/
structure DecodedAudio where
  numberOfChannels : Nat
  len : Nat
  channelData : Nat → Nat → ℝ

/-- The call `decoded.getChannelData(c)` as a list of `len` samples. -/
def getChannelData (d : DecodedAudio) (c : Nat) : List ℝ :=
  (List.range d.len).map (d.channelData c)

/-- The constant `SCALING_FACTOR = Math.sqrt(2)` (App.jsx line 143). -/
noncomputable def SCALING_FACTOR : ℝ := Real.sqrt 2

/-- The down-mix step of the `onloadend` handler (App.jsx lines 141-155):
if the buffer has exactly two channels, each output sample `i` is
`SCALING_FACTOR * (left[i] + right[i]) / 2`; otherwise the first channel
is used unchanged. -/
noncomputable def downmix (d : DecodedAudio) : List ℝ :=
  if d.numberOfChannels = 2 then
    (List.range d.len).map
      (fun i => SCALING_FACTOR * (d.channelData 0 i + d.channelData 1 i) / 2)
  else
    getChannelData d 0

/-- An entry of the `companies` array of the analysis result. -/
structure Company where
  name : String
  industry : String
  deriving Repr, DecidableEq

/-- An entry of the `products` array of the analysis result. -/
structure ProductInfo where
  name : String
  description : String
  deriving Repr, DecidableEq

/-- The structured analysis result parsed from the model response
(the four keys requested by the system prompt, App.jsx lines 71-75). -/
structure AnalysisResult where
  contextualAnalysis : String
  companies : List Company
  products : List ProductInfo
  relatedInfo : String
  deriving Repr, DecidableEq

/-- A resolved `fetch` response as the invoker consumes it:
`response.ok`, `response.status`, and the content string
`data.choices[0].message.content` extracted from the JSON body
(`none` when the body is not JSON of the expected shape). -/
structure HttpResponse where
  ok : Bool
  status : Nat
  content : Option String
  deriving Repr, DecidableEq

/-- The distinct failure modes of `analyzeWithOpenAI`: the missing-key
throw, a rejected `fetch`, a non-success HTTP status, and unparseable
response content. -/
inductive AnalysisError where
  | config : String → AnalysisError
  | network : String → AnalysisError
  | service : Nat → AnalysisError
  | format : AnalysisError
  deriving Repr, DecidableEq

/-- The observable outcome of one `analyzeWithOpenAI` invocation: the
returned value or thrown error, the transcript texts sent over the
network (in order), and the final value of the `isAnalyzing` flag. -/
structure AnalyzeOutcome where
  result : Except AnalysisError AnalysisResult
  requests : List String
  isAnalyzing : Bool

/-- The function `analyzeWithOpenAI` (App.jsx lines 47-110).
`fetchResult` is the outcome of the single `fetch` call and `parseJson`
models `JSON.parse` applied to the content string.  The empty-key check
precedes the `try` block, so on that path no request is issued and
`isAnalyzing` keeps its prior value; every other path runs the `finally`
clause, which clears `isAnalyzing`. -/
def analyzeWithOpenAI (apiKey : String) (text : String) (isAnalyzing0 : Bool)
    (fetchResult : Except String HttpResponse)
    (parseJson : String → Option AnalysisResult) : AnalyzeOutcome :=
  if apiKey = "" then
    ⟨Except.error (AnalysisError.config "Please enter your OpenAI API key"),
      [], isAnalyzing0⟩
  else
    match fetchResult with
    | Except.error e => ⟨Except.error (AnalysisError.network e), [text], false⟩
    | Except.ok resp =>
      if resp.ok then
        match resp.content with
        | none => ⟨Except.error AnalysisError.format, [text], false⟩
        | some c =>
          match parseJson c with
          | none => ⟨Except.error AnalysisError.format, [text], false⟩
          | some r => ⟨Except.ok r, [text], false⟩
      else
        ⟨Except.error (AnalysisError.service resp.status), [text], false⟩

/-- The mutable app state touched by the pipeline: the React state hooks
(`isRecording`, `transcription`, `status`, `isModelLoading`,
`isAnalyzing`, `apiKey`, the stream tracks) together with the recorder
ref and the chunk buffer ref. -/
structure AppState where
  isRecording : Bool
  transcription : String
  status : String
  isModelLoading : Bool
  isAnalyzing : Bool
  apiKey : String
  recorderPresent : Bool
  recorderStopped : Bool
  tracksLive : Bool
  chunks : List String
  analysis : Option AnalysisResult
  deriving Repr, DecidableEq

/-- The handler `stopRecording` (App.jsx lines 194-203): guarded by
`recorderRef.current && isRecording`; it stops the recorder, clears the
recording flag and the status line, and stops the stream tracks. -/
def stopRecording (st : AppState) : AppState :=
  if st.recorderPresent && st.isRecording then
    { st with recorderStopped := true, isRecording := false,
              status := "", tracksLive := false }
  else st

/-- The synchronous body of `startRecording` (App.jsx lines 112-192).
`device` is the outcome of `navigator.mediaDevices.getUserMedia`; that
call is not wrapped in any `try`, so a rejection escapes the handler
(second component `some` message) with the state unchanged. -/
def startRecordingStep (st : AppState) (device : Except String Unit) :
    AppState × Option String :=
  match device with
  | Except.error e => (st, some e)
  | Except.ok _ =>
    ({ st with recorderPresent := true, recorderStopped := false,
               chunks := [], tracksLive := true,
               isRecording := true, status := "Recording..." }, none)

/-- The value returned by the transcriber call, of which only `.text` is
read (App.jsx line 175). -/
structure TranscriptionResult where
  text : String
  deriving Repr, DecidableEq

/-- Outcomes of the platform and external calls made by the `onstop` and
`onloadend` handlers: `decodeAudioData`, whether `transcriberRef.current`
is set, the transcriber itself, and the two inputs consumed by
`analyzeWithOpenAI`. -/
structure StageOutcomes where
  decodeResult : Except String DecodedAudio
  transcriberLoaded : Bool
  transcribe : List ℝ → Except String TranscriptionResult
  fetchResult : Except String HttpResponse
  parseJson : String → Option AnalysisResult

/-- The observable outcome of the `onstop`/`onloadend` chain: the final
app state, the message of an exception that escaped the handler
(`none` when the chain ran to completion), the number of times
`analyzeWithOpenAI` was invoked, and the transcript texts sent over the
network. -/
structure RunResult where
  state : AppState
  uncaught : Option String
  analyzeCalls : Nat
  requests : List String

/-- The message a thrown `AnalysisError` escapes with. -/
def errMessage : AnalysisError → String
  | AnalysisError.config m => m
  | AnalysisError.network m => m
  | AnalysisError.service n => "OpenAI API error: " ++ toString n
  | AnalysisError.format => "SyntaxError: invalid JSON"

/-- The message of the TypeError thrown by `result.text` when `result`
is still undefined after a caught transcription failure
(App.jsx line 175). -/
def undefinedTextError : String :=
  "TypeError: cannot read text of undefined"

/-- The `onstop` handler and its nested `onloadend` handler
(App.jsx lines 128-184).  It sets the status line, stops the tracks,
decodes the blob (an uncaught rejection point), down-mixes, throws if the
transcriber is missing, runs the transcriber inside the only `try` of
the chain (a failure only sets the status, after which `result.text`
throws an uncaught TypeError), and finally invokes `analyzeWithOpenAI`
outside any `try`, so an analysis error also escapes uncaught. -/
noncomputable def runOnstop (st0 : AppState) (o : StageOutcomes) : RunResult :=
  let st1 := { st0 with status := "Transcribing audio...", tracksLive := false }
  match o.decodeResult with
  | Except.error e => ⟨st1, some e, 0, []⟩
  | Except.ok decoded =>
    let audio := downmix decoded
    if o.transcriberLoaded then
      match o.transcribe audio with
      | Except.error e =>
        ⟨{ st1 with status := "Transcription error: " ++ e, chunks := [] },
          some undefinedTextError, 0, []⟩
      | Except.ok r =>
        let st2 := { st1 with chunks := [], transcription := r.text,
                              status := "Transcription analysis in progress..." }
        let a := analyzeWithOpenAI st2.apiKey r.text st2.isAnalyzing
                   o.fetchResult o.parseJson
        match a.result with
        | Except.error err =>
          ⟨{ st2 with isAnalyzing := a.isAnalyzing },
            some (errMessage err), 1, a.requests⟩
        | Except.ok res =>
          ⟨{ st2 with isAnalyzing := a.isAnalyzing, analysis := some res,
                      status := "Transcription analysis done!" },
            none, 1, a.requests⟩
    else
      ⟨st1, some "Transcriber not initialized", 0, []⟩

/-- The record-button guard
`disabled=\x7bisModelLoading || isAnalyzing || !apiKey\x7d`
(App.jsx line 227); the empty string is the only falsy string. -/
def recordButtonDisabled (st : AppState) : Bool :=
  st.isModelLoading || st.isAnalyzing || st.apiKey == ""

/-- What a click on the record button dispatches. -/
inductive ClickAction where
  | idle
  | stopAction
  | startAction
  deriving Repr, DecidableEq

/-- A click on the record button (App.jsx line 226): a disabled button
dispatches nothing; otherwise `stopRecording` when recording, else
`startRecording`. -/
def clickRecord (st : AppState) : ClickAction :=
  if recordButtonDisabled st then ClickAction.idle
  else if st.isRecording then ClickAction.stopAction
  else ClickAction.startAction

/-- A concrete stereo buffer with two frames for witness checks. -/
def stereoSample : DecodedAudio :=
  ⟨2, 2, fun c i => if c = 0 then (i + 1 : ℝ) else (2 * i : ℝ)⟩

/-- A concrete mono buffer with three frames for witness checks. -/
def monoSample : DecodedAudio :=
  ⟨1, 3, fun _ i => (i : ℝ)⟩

/-- A concrete idle app state with a key entered and the model loaded. -/
def idleState : AppState :=
  ⟨false, "", "Model ready", false, false, "sk-test",
    false, false, false, [], none⟩

/-- The idle state while an analysis is in flight. -/
def analyzingState : AppState :=
  { idleState with isAnalyzing := true }

/-- A concrete successful HTTP response. -/
def okResponse : HttpResponse := ⟨true, 200, some "ok-content"⟩

/-- A concrete `JSON.parse` that always succeeds. -/
def okParse : String → Option AnalysisResult :=
  fun _ => some ⟨"overview", [], [], ""⟩

/-- A concrete `JSON.parse` that always fails. -/
def noParse : String → Option AnalysisResult := fun _ => none

/-- Stage outcomes where `decodeAudioData` rejects. -/
def decodeFailOutcomes : StageOutcomes :=
  ⟨Except.error "EncodingError: unable to decode audio data", true,
    fun _ => Except.ok ⟨"hello"⟩, Except.ok okResponse, okParse⟩

/-- Stage outcomes where decoding succeeds and the transcriber throws. -/
def transcribeFailOutcomes : StageOutcomes :=
  ⟨Except.ok monoSample, true, fun _ => Except.error "model failure",
    Except.ok okResponse, okParse⟩

/-- C1: for every stereo input (channel count 2) the down-mix output has
length equal to the input channel length, and for every index `i` the
output sample equals `sqrt 2 * (left[i] + right[i]) / 2`. -/
theorem downmix_stereo (d : DecodedAudio) (h : d.numberOfChannels = 2) :
    (downmix d).length = (getChannelData d 0).length ∧
    (downmix d).length = d.len ∧
    ∀ i, i < d.len →
      (downmix d).getD i 0 =
        Real.sqrt 2 * (d.channelData 0 i + d.channelData 1 i) / 2 := by
  unfold downmix getChannelData SCALING_FACTOR
  rw [if_pos h]
  refine ⟨by simp, by simp, ?_⟩
  intro i hi
  rw [List.getD_eq_getElem _ _ (by simpa using hi)]
  rw [List.getElem_map, List.getElem_range]

/-- Witness for C1 at the concrete two-frame stereo buffer. -/
theorem downmix_stereo_witness :
    stereoSample.numberOfChannels = 2 ∧
    (downmix stereoSample).length = stereoSample.len ∧
    (downmix stereoSample).getD 0 0 =
      Real.sqrt 2 *
        (stereoSample.channelData 0 0 + stereoSample.channelData 1 0) / 2 :=
  ⟨rfl, (downmix_stereo stereoSample rfl).2.1,
    (downmix_stereo stereoSample rfl).2.2 0 (by decide)⟩

/-- C6: for every non-stereo input (channel count not 2) the down-mix
output is the first channel unchanged. -/
theorem downmix_mono (d : DecodedAudio) (h : d.numberOfChannels ≠ 2) :
    downmix d = getChannelData d 0 := by
  unfold downmix
  rw [if_neg h]

/-- Witness for C6 at the concrete mono buffer. -/
theorem downmix_mono_witness :
    monoSample.numberOfChannels ≠ 2 ∧
    downmix monoSample = getChannelData monoSample 0 :=
  ⟨by decide, downmix_mono monoSample (by decide)⟩

/-- C3: for every transcript text, invoking the analysis with an empty
credential fails with the config error before any network request is
issued (the request list is empty). -/
theorem analyze_empty_key (text : String) (b : Bool)
    (fr : Except String HttpResponse) (p : String → Option AnalysisResult) :
    (analyzeWithOpenAI "" text b fr p).result =
      Except.error (AnalysisError.config "Please enter your OpenAI API key") ∧
    (analyzeWithOpenAI "" text b fr p).requests = [] := by
  constructor <;> rfl

/-- C4: with a non-empty credential, a non-success response fails with
the service error carrying the HTTP status, and a success response
whose content is missing or unparseable fails with the format error. -/
theorem analyze_response_errors (key text : String) (b : Bool)
    (resp : HttpResponse) (p : String → Option AnalysisResult)
    (hk : key ≠ "") :
    (resp.ok = false →
      (analyzeWithOpenAI key text b (Except.ok resp) p).result =
        Except.error (AnalysisError.service resp.status)) ∧
    (resp.ok = true → resp.content = none →
      (analyzeWithOpenAI key text b (Except.ok resp) p).result =
        Except.error AnalysisError.format) ∧
    (∀ c, resp.ok = true → resp.content = some c → p c = none →
      (analyzeWithOpenAI key text b (Except.ok resp) p).result =
        Except.error AnalysisError.format) := by
  unfold analyzeWithOpenAI
  rw [if_neg hk]
  obtain ⟨ok, status, content⟩ := resp
  refine ⟨?_, ?_, ?_⟩
  · intro h
    subst h
    rfl
  · intro h hc
    subst h
    subst hc
    rfl
  · intro c h hc hp
    subst h
    subst hc
    simp [hp]

/-- Witness for C4: a 500 response yields the service error. -/
theorem analyze_response_errors_witness :
    ("k" : String) ≠ "" ∧
    (analyzeWithOpenAI "k" "t" false (Except.ok ⟨false, 500, none⟩)
        noParse).result = Except.error (AnalysisError.service 500) :=
  ⟨by decide, (analyze_response_errors "k" "t" false ⟨false, 500, none⟩
      noParse (by decide)).1 rfl⟩

/-- C9: with a non-empty credential every invocation sends exactly one
request, carrying the transcript text, whatever the outcome. -/
theorem analyze_single_request (key text : String) (b : Bool)
    (fr : Except String HttpResponse) (p : String → Option AnalysisResult)
    (hk : key ≠ "") :
    (analyzeWithOpenAI key text b fr p).requests = [text] := by
  unfold analyzeWithOpenAI
  rw [if_neg hk]
  cases fr with
  | error e => rfl
  | ok resp =>
    obtain ⟨ok, status, content⟩ := resp
    cases ok
    · rfl
    · cases content with
      | none => rfl
      | some c => cases hp : p c <;> simp [hp]

/-- Witness for C9 at a concrete successful invocation. -/
theorem analyze_single_request_witness :
    ("k" : String) ≠ "" ∧
    (analyzeWithOpenAI "k" "t" false (Except.ok okResponse) okParse).requests
      = ["t"] :=
  ⟨by decide, analyze_single_request "k" "t" false (Except.ok okResponse)
      okParse (by decide)⟩

/-- C10 counterexample: an invocation with an empty credential throws
before the `try` block, so the analyzing flag is neither set nor
cleared; a true flag survives the invocation, contradicting the claim
that it is false after every completed invocation. -/
theorem analyze_flag_counterexample :
    (analyzeWithOpenAI "" "t" true (Except.ok okResponse) okParse).isAnalyzing
      = true := rfl

/-- C10 amended: with a non-empty credential the analyzing flag is false
after the invocation returns or throws (the `finally` clears it); with
an empty credential the invocation throws before the flag is touched,
leaving it unchanged. -/
theorem analyze_flag_final (key text : String) (b : Bool)
    (fr : Except String HttpResponse) (p : String → Option AnalysisResult) :
    (key ≠ "" → (analyzeWithOpenAI key text b fr p).isAnalyzing = false) ∧
    (key = "" → (analyzeWithOpenAI key text b fr p).isAnalyzing = b) := by
  constructor
  · intro hk
    unfold analyzeWithOpenAI
    rw [if_neg hk]
    cases fr with
    | error e => rfl
    | ok resp =>
      obtain ⟨ok, status, content⟩ := resp
      cases ok
      · rfl
      · cases content with
        | none => rfl
        | some c => cases hp : p c <;> simp [hp]
  · intro hk
    subst hk
    rfl

/-- Witness for the amended C10 at a concrete successful invocation. -/
theorem analyze_flag_final_witness :
    (analyzeWithOpenAI "k" "t" true (Except.ok okResponse) okParse).isAnalyzing
      = false :=
  (analyze_flag_final "k" "t" true (Except.ok okResponse) okParse).1
    (by decide)

/-- C7: a second stop right after a first one leaves the state exactly
as the first left it, and a stop while not recording is a no-op. -/
theorem stop_idempotent (st : AppState) :
    stopRecording (stopRecording st) = stopRecording st ∧
    (st.isRecording = false → stopRecording st = st) := by
  constructor
  · unfold stopRecording
    by_cases h : st.recorderPresent && st.isRecording
    · rw [if_pos h]
      simp
    · rw [if_neg h, if_neg h]
  · intro h
    unfold stopRecording
    simp [h]

/-- Witness for C7 at the concrete idle state. -/
theorem stop_idempotent_witness :
    idleState.isRecording = false ∧ stopRecording idleState = idleState :=
  ⟨rfl, (stop_idempotent idleState).2 rfl⟩

/-- C8: while analysis is in flight, the model is loading, or the
credential is empty, a record-button click dispatches nothing, so no
new recording session can start. -/
theorem start_rejected (st : AppState)
    (h : st.isAnalyzing = true ∨ st.isModelLoading = true ∨ st.apiKey = "") :
    clickRecord st = ClickAction.idle := by
  unfold clickRecord recordButtonDisabled
  rcases h with h | h | h <;> simp [h]

/-- Witness for C8 at the concrete analyzing state. -/
theorem start_rejected_witness :
    analyzingState.isAnalyzing = true ∧
    clickRecord analyzingState = ClickAction.idle :=
  ⟨rfl, start_rejected analyzingState (Or.inl rfl)⟩

/-- C2 counterexample: a decode failure escapes the `onloadend` handler
uncaught, and the status line is never set to any message describing
it, refuting the claim that every stage-boundary error is caught and
converted into a status string. -/
theorem decode_error_uncaught :
    (runOnstop idleState decodeFailOutcomes).uncaught =
      some "EncodingError: unable to decode audio data" ∧
    (runOnstop idleState decodeFailOutcomes).state.status =
      "Transcribing audio..." :=
  ⟨rfl, rfl⟩

/-- C2 amended: only the transcription call sits in a `try`, and its
caught failure sets the status string but is followed by an uncaught
TypeError; device-acquisition, decode, and analysis errors all escape
their handlers uncaught, leaving the status line without any message
describing them. -/
theorem error_propagation (st : AppState) (o : StageOutcomes) (e : String) :
    (startRecordingStep st (Except.error e) = (st, some e)) ∧
    (o.decodeResult = Except.error e →
      runOnstop st o =
        ⟨{ st with status := "Transcribing audio...", tracksLive := false },
          some e, 0, []⟩) ∧
    (∀ d, o.decodeResult = Except.ok d → o.transcriberLoaded = true →
      o.transcribe (downmix d) = Except.error e →
      (runOnstop st o).state.status = "Transcription error: " ++ e ∧
      (runOnstop st o).uncaught = some undefinedTextError) ∧
    (∀ d r err, o.decodeResult = Except.ok d → o.transcriberLoaded = true →
      o.transcribe (downmix d) = Except.ok r →
      (analyzeWithOpenAI st.apiKey r.text st.isAnalyzing o.fetchResult
          o.parseJson).result = Except.error err →
      (runOnstop st o).uncaught = some (errMessage err) ∧
      (runOnstop st o).state.status =
        "Transcription analysis in progress...") := by
  refine ⟨rfl, ?_, ?_, ?_⟩
  · intro hd
    simp [runOnstop, hd]
  · intro d hd hl ht
    simp [runOnstop, hd, hl, ht]
  · intro d r err hd hl ht ha
    simp [runOnstop, hd, hl, ht, ha]

/-- Witness for the amended C2 at a concrete decode failure. -/
theorem error_propagation_witness :
    decodeFailOutcomes.decodeResult =
      Except.error "EncodingError: unable to decode audio data" ∧
    runOnstop idleState decodeFailOutcomes =
      ⟨{ idleState with status := "Transcribing audio...",
                        tracksLive := false },
        some "EncodingError: unable to decode audio data", 0, []⟩ :=
  ⟨rfl, (error_propagation idleState decodeFailOutcomes
      "EncodingError: unable to decode audio data").2.1 rfl⟩

/-- C5 counterexample: after a transcription failure the analysis stage
is never invoked — the handler throws an uncaught TypeError reading the
undefined result first — refuting the claim that the pipeline proceeds
to invoke analysis. -/
theorem transcription_error_no_analysis :
    (runOnstop idleState transcribeFailOutcomes).analyzeCalls = 0 ∧
    (runOnstop idleState transcribeFailOutcomes).uncaught =
      some undefinedTextError ∧
    (runOnstop idleState transcribeFailOutcomes).state.status =
      "Transcription error: model failure" :=
  ⟨rfl, rfl, rfl⟩

/-- C5 amended: when the transcription stage fails, the status is
updated to the transcription error message, but the analysis stage is
never invoked: no request is sent and the handler escapes with an
uncaught TypeError. -/
theorem transcription_error_behavior (st : AppState) (o : StageOutcomes)
    (d : DecodedAudio) (e : String)
    (hd : o.decodeResult = Except.ok d)
    (hl : o.transcriberLoaded = true)
    (ht : o.transcribe (downmix d) = Except.error e) :
    (runOnstop st o).state.status = "Transcription error: " ++ e ∧
    (runOnstop st o).analyzeCalls = 0 ∧
    (runOnstop st o).requests = [] ∧
    (runOnstop st o).uncaught = some undefinedTextError := by
  simp [runOnstop, hd, hl, ht]

/-- Witness for the amended C5 at a concrete transcriber failure. -/
theorem transcription_error_behavior_witness :
    transcribeFailOutcomes.decodeResult = Except.ok monoSample ∧
    transcribeFailOutcomes.transcriberLoaded = true ∧
    transcribeFailOutcomes.transcribe (downmix monoSample) =
      Except.error "model failure" ∧
    (runOnstop idleState transcribeFailOutcomes).analyzeCalls = 0 :=
  ⟨rfl, rfl, rfl, (transcription_error_behavior idleState
      transcribeFailOutcomes monoSample "model failure" rfl rfl rfl).2.1⟩

end MeetingAssist
